import Mathlib

/-!
Shallow embedding of the `WebXRLightEstimation` feature of Babylon.js
(the WebXR light-estimation plugin).

The instance fields of the class become a record `FeatureState`; each
method becomes a state-passing function.  The asynchronous
`requestLightProbe` promise is split into two steps: `attach` records
the request it issues (as the list of reflection formats requested),
and `resolveLightProbe` is the `then`-callback that stores the handle
once the host resolves the request.  Effects on host collaborators are
made observable in return values: `attach` returns the list of issued
probe requests, `reflectionCubeMap` returns how many graphics objects
were obtained, and `dispose` returns how many `removeEventListener`
calls it performed.  JavaScript truthiness is made explicit where the
source relies on it, in particular in the guard
`if (this._reflectionCubeMap = null)` of the cube-map accessor, which
is an assignment expression whose value is `null` and therefore falsy.
-/

namespace WebXRLightEstimation

/-- Opaque host handle for a light probe (`XRLightProbe`). -/
abbrev XRLightProbe := Nat

/-- Opaque per-frame lighting sample (`XRLightEstimate`). -/
abbrev XRLightEstimate := Nat

/-- Opaque GPU texture handle (`WebGLTexture`). -/
abbrev WebGLTexture := Nat

/-- An `XRFrame`, reduced to the single operation the feature uses:
`getLightEstimate`, keyed by a probe handle.  The result is optional
because the field it is stored into is nullable. -/
structure XRFrame where
  getLightEstimate : XRLightProbe → Option XRLightEstimate

/-- The slice of the XR session read by `attach`:
`session.preferredReflectionFormat`, which may be absent. -/
structure XRSessionModel where
  preferredReflectionFormat : Option String

/-- `IWebXRLightEstimationOptions`: one optional boolean field,
`reflectionFormatSRGBA8?`. -/
structure IWebXRLightEstimationOptions where
  reflectionFormatSRGBA8 : Option Bool

/-- JavaScript truthiness of an optional boolean: `undefined` is
falsy, a present boolean keeps its value. -/
def jsTruthyOptBool (v : Option Bool) : Bool :=
  match v with
  | none => false
  | some b => b

/-- JavaScript truthiness of a nullable object reference: `null` is
falsy, any object is truthy. -/
def jsTruthyObj {α : Type} (v : Option α) : Bool :=
  v.isSome

/-- The graphics collaborator reached through the lazily created
`XRWebGLBinding`: `getReflectionCubeMap` materialises a cube-map
texture for a probe. -/
structure GraphicsEnv where
  getReflectionCubeMap : XRLightProbe → WebGLTexture

/-- The mutable instance fields of `WebXRLightEstimation`
(source lines 24 to 27), together with the attached flag kept by the
base class and a count of registered `reflectionchange` listeners. -/
structure FeatureState where
  attached : Bool
  xrLightProbe : Option XRLightProbe
  xrLightEstimate : Option XRLightEstimate
  xrWebGLBinding : Option Nat
  reflectionCubeMap : Option WebGLTexture
  reflectionChangeListeners : Nat
deriving Repr, DecidableEq

/-- The field initialisers of the class: every nullable field starts
at `null`, the feature starts detached, no listener registered. -/
def initialState : FeatureState :=
  { attached := false
    xrLightProbe := none
    xrLightEstimate := none
    xrWebGLBinding := none
    reflectionCubeMap := none
    reflectionChangeListeners := 0 }

/-- Modelled from the spec: `WebXRAbstractFeature.attach` (the base
class is not among the reviewed sources).  Per the spec it is the
precondition check delegated by `attach` — it fails when the feature
is already attached, and otherwise marks the feature attached. -/
def baseAttach (s : FeatureState) : Bool × FeatureState :=
  if s.attached then (false, s) else (true, { s with attached := true })

/-- Modelled from the spec: `WebXRAbstractFeature.dispose` performs
the base feature teardown, detaching the feature. -/
def baseDispose (s : FeatureState) : FeatureState :=
  { s with attached := false }

/-- `attach` (source lines 65 to 76): runs the base check and returns
`false` early when it fails; otherwise issues one `requestLightProbe`
call whose `reflectionFormat` is
`options.reflectionFormatSRGBA8 ? "srgba8"
 : session.preferredReflectionFormat ?? "srgba8"`,
and returns `true`.  The third component lists the reflection formats
of the probe requests issued during the call; resolution of the
request is the separate step `resolveLightProbe`. -/
def attach (options : IWebXRLightEstimationOptions)
    (session : XRSessionModel) (s : FeatureState) :
    Bool × FeatureState × List String :=
  match baseAttach s with
  | (false, s1) => (false, s1, [])
  | (true, s1) =>
      (true, s1,
        [if jsTruthyOptBool options.reflectionFormatSRGBA8 then "srgba8"
         else session.preferredReflectionFormat.getD "srgba8"])

/-- The `then`-callback of the probe request (source lines 72 to 74):
when the promise resolves, the handle is stored unconditionally. -/
def resolveLightProbe (value : XRLightProbe) (s : FeatureState) :
    FeatureState :=
  { s with xrLightProbe := some value }

/-- `_getXRGLBinding` (source lines 78 to 89): lazily creates the
`XRWebGLBinding` from the rendering context.  Returns the binding,
the new state, and how many graphics objects were newly obtained. -/
def getXRGLBinding (s : FeatureState) : Nat × FeatureState × Nat :=
  match s.xrWebGLBinding with
  | some b => (b, s, 0)
  | none => (0, { s with xrWebGLBinding := some 0 }, 1)

/-- The `reflectionCubeMap` getter (source lines 105 to 116).  When no
probe handle exists it returns `null` at once.  Otherwise the guard on
line 110 is `if (this._reflectionCubeMap = null)`: a JavaScript
assignment expression that stores `null` into the field and evaluates
to `null`; the branch is taken according to the truthiness of that
assigned value.  Inside the branch the source obtains the binding,
materialises the cube map, and registers a `reflectionchange`
listener.  Returns the value produced, the new state, and the number
of graphics objects obtained or allocated during the access. -/
def reflectionCubeMap (env : GraphicsEnv) (s : FeatureState) :
    Option WebGLTexture × FeatureState × Nat :=
  match s.xrLightProbe with
  | none => (none, s, 0)
  | some probe =>
      let assigned : Option WebGLTexture := none
      let s1 := { s with reflectionCubeMap := assigned }
      if jsTruthyObj assigned then
        let r := getXRGLBinding s1
        let tex := env.getReflectionCubeMap probe
        (some tex,
         { r.2.1 with
             reflectionCubeMap := some tex
             reflectionChangeListeners :=
               r.2.1.reflectionChangeListeners + 1 },
         r.2.2 + 1)
      else
        (s1.reflectionCubeMap, s1, 0)

/-- The `xrLightProbe` getter (source lines 123 to 125). -/
def xrLightProbeGet (s : FeatureState) : Option XRLightProbe :=
  s.xrLightProbe

/-- The `xrLightingEstimate` getter (source lines 130 to 132). -/
def xrLightingEstimate (s : FeatureState) : Option XRLightEstimate :=
  s.xrLightEstimate

/-- `dispose` (source lines 137 to 143): base teardown, then a
`removeEventListener` call for `reflectionchange` exactly when both
the probe handle and the cube-map field are non-null, then the probe
handle is cleared.  The second component counts the
`removeEventListener` calls performed; removal with no listener
registered is a no-op in the DOM, modelled by truncated
subtraction. -/
def dispose (s : FeatureState) : FeatureState × Nat :=
  let s1 := baseDispose s
  if s1.xrLightProbe.isSome && s1.reflectionCubeMap.isSome then
    ({ s1 with
         reflectionChangeListeners := s1.reflectionChangeListeners - 1
         xrLightProbe := none }, 1)
  else
    ({ s1 with xrLightProbe := none }, 0)

/-- `_onXRFrame` (source lines 145 to 149): a no-op while the probe
handle is null, otherwise stores the estimate the frame yields for the
stored handle. -/
def onXRFrame (frame : XRFrame) (s : FeatureState) : FeatureState :=
  match s.xrLightProbe with
  | none => s
  | some probe =>
      { s with xrLightEstimate := frame.getLightEstimate probe }

/-- Running a sequence of frame ticks in order. -/
def runFrames (frames : List XRFrame) (s : FeatureState) :
    FeatureState :=
  frames.foldl (fun acc f => onXRFrame f acc) s

/-- Helper: with a probe handle present, one access to the cube-map
getter returns `null`, clears the cached cube-map field, and obtains
no graphics object, because the assigned guard value `null` is
falsy. -/
theorem reflectionCubeMap_eq_of_probe (env : GraphicsEnv)
    (s : FeatureState) (p : XRLightProbe)
    (h : s.xrLightProbe = some p) :
    reflectionCubeMap env s =
      (none, { s with reflectionCubeMap := none }, 0) := by
  simp [reflectionCubeMap, h, jsTruthyObj]

/-- Claim C1: when `attach` issues the probe request (the base check
succeeding), the reflection format of the request is chosen so: with
`reflectionFormatSRGBA8` true the request uses `"srgba8"` even when
the session reports a different preferred format; with it false and a
session-reported preferred format, the request uses that format; with
it false and no reported preference, the request uses `"srgba8"`. -/
theorem C1_attach_reflection_format (other f : String)
    (s : FeatureState) (hbase : s.attached = false) :
    (attach ⟨some true⟩ ⟨some other⟩ s).2.2 = ["srgba8"] ∧
    (attach ⟨some false⟩ ⟨some f⟩ s).2.2 = [f] ∧
    (attach ⟨some false⟩ ⟨none⟩ s).2.2 = ["srgba8"] := by
  refine ⟨?_, ?_, ?_⟩ <;>
    simp [attach, baseAttach, hbase, jsTruthyOptBool]

/-- Witness for C1 at concrete inputs: the detached initial state, a
session preferring `"rgba16f"` for the override case and `"rgb9e5"`
for the pass-through case. -/
theorem C1_attach_reflection_format_witness :
    initialState.attached = false ∧
    ((attach ⟨some true⟩ ⟨some "rgba16f"⟩ initialState).2.2 =
        ["srgba8"] ∧
     (attach ⟨some false⟩ ⟨some "rgb9e5"⟩ initialState).2.2 =
        ["rgb9e5"] ∧
     (attach ⟨some false⟩ ⟨none⟩ initialState).2.2 = ["srgba8"]) :=
  ⟨rfl, C1_attach_reflection_format "rgba16f" "rgb9e5" initialState rfl⟩

/-- Claim C2: when the base attach precondition fails, `attach`
returns `false`, leaves the state unchanged, and issues zero probe
requests; when it succeeds, `attach` returns `true` with exactly one
request issued and with the probe handle still whatever it was —
resolution is a separate later step, so the return value does not
depend on it. -/
theorem C2_attach_failure_and_success
    (options : IWebXRLightEstimationOptions) (session : XRSessionModel)
    (s : FeatureState) :
    (s.attached = true → attach options session s = (false, s, [])) ∧
    (s.attached = false →
      (attach options session s).1 = true ∧
      (attach options session s).2.1.xrLightProbe = s.xrLightProbe ∧
      (attach options session s).2.2.length = 1) := by
  refine ⟨fun h => ?_, fun h => ?_⟩
  · simp [attach, baseAttach, h]
  · refine ⟨?_, ?_, ?_⟩ <;> simp [attach, baseAttach, h]

/-- Witness for C2, exercising both sides: the detached initial state
for the success case and an already-attached state for the failure
case. -/
theorem C2_attach_failure_and_success_witness :
    ((({ initialState with attached := true } : FeatureState).attached
        = true →
      attach ⟨none⟩ ⟨none⟩ { initialState with attached := true } =
        (false, { initialState with attached := true }, [])) ∧
     (({ initialState with attached := true } : FeatureState).attached
        = false →
      (attach ⟨none⟩ ⟨none⟩
          { initialState with attached := true }).1 = true ∧
      (attach ⟨none⟩ ⟨none⟩
          { initialState with attached := true }).2.1.xrLightProbe =
        ({ initialState with attached := true } :
          FeatureState).xrLightProbe ∧
      (attach ⟨none⟩ ⟨none⟩
          { initialState with attached := true }).2.2.length = 1)) ∧
    ((initialState.attached = true →
      attach ⟨none⟩ ⟨none⟩ initialState = (false, initialState, [])) ∧
     (initialState.attached = false →
      (attach ⟨none⟩ ⟨none⟩ initialState).1 = true ∧
      (attach ⟨none⟩ ⟨none⟩ initialState).2.1.xrLightProbe =
        initialState.xrLightProbe ∧
      (attach ⟨none⟩ ⟨none⟩ initialState).2.2.length = 1)) :=
  ⟨C2_attach_failure_and_success ⟨none⟩ ⟨none⟩
      { initialState with attached := true },
   C2_attach_failure_and_success ⟨none⟩ ⟨none⟩ initialState⟩

/-- Claim C3: while no probe handle is stored, every sequence of frame
ticks leaves the state unchanged — each tick is a no-op — and the
`xrLightingEstimate` accessor returns `null` throughout (the equation
holds for every list of frames, hence for every prefix of a given
sequence). -/
theorem C3_frames_noop_before_probe (s : FeatureState)
    (hprobe : s.xrLightProbe = none) (hest : s.xrLightEstimate = none)
    (frames : List XRFrame) :
    runFrames frames s = s ∧
    xrLightingEstimate (runFrames frames s) = none := by
  have key : runFrames frames s = s := by
    induction frames with
    | nil => rfl
    | cons f fs ih =>
        have h1 : onXRFrame f s = s := by simp [onXRFrame, hprobe]
        calc runFrames (f :: fs) s
            = runFrames fs (onXRFrame f s) := rfl
          _ = runFrames fs s := by rw [h1]
          _ = s := ih
  exact ⟨key, by simp [key, xrLightingEstimate, hest]⟩

/-- Witness for C3: the initial state (no probe, no estimate) and two
concrete frames, one of which would yield an estimate if queried. -/
theorem C3_frames_noop_before_probe_witness :
    initialState.xrLightProbe = none ∧
    initialState.xrLightEstimate = none ∧
    (runFrames [⟨fun _ => some 5⟩, ⟨fun _ => none⟩] initialState =
        initialState ∧
     xrLightingEstimate
        (runFrames [⟨fun _ => some 5⟩, ⟨fun _ => none⟩] initialState) =
        none) :=
  ⟨rfl, rfl,
   C3_frames_noop_before_probe initialState rfl rfl
     [⟨fun _ => some 5⟩, ⟨fun _ => none⟩]⟩

/-- Claim C4: once a probe handle is stored, a frame tick replaces the
stored most-recent estimate exactly once, with the estimate the frame
yields for that handle, and changes nothing else — so no value besides
the single most recent one is retained. -/
theorem C4_frame_replaces_estimate (s : FeatureState)
    (p : XRLightProbe) (frame : XRFrame)
    (hprobe : s.xrLightProbe = some p) :
    onXRFrame frame s =
      { s with xrLightEstimate := frame.getLightEstimate p } := by
  simp [onXRFrame, hprobe]

/-- Witness for C4: a state holding probe 2 and a stale estimate 7,
and a frame mapping probe `q` to estimate `q + 1`; the tick replaces 7
with 3. -/
theorem C4_frame_replaces_estimate_witness :
    (⟨true, some 2, some 7, none, none, 0⟩ :
        FeatureState).xrLightProbe = some 2 ∧
    onXRFrame ⟨fun q => some (q + 1)⟩
        ⟨true, some 2, some 7, none, none, 0⟩ =
      ⟨true, some 2, some 3, none, none, 0⟩ :=
  ⟨rfl, by
    simpa using
      C4_frame_replaces_estimate ⟨true, some 2, some 7, none, none, 0⟩
        2 ⟨fun q => some (q + 1)⟩ rfl⟩

/-- Claim C5: with a probe handle present, two successive accesses to
the `reflectionCubeMap` accessor with no intervening reflectionchange
notification return the identical cached reference, reach the same
state, and obtain at most one graphics resource in total. -/
theorem C5_cube_map_at_most_one_alloc (env : GraphicsEnv)
    (s : FeatureState) (p : XRLightProbe)
    (hprobe : s.xrLightProbe = some p) :
    (reflectionCubeMap env (reflectionCubeMap env s).2.1).1 =
      (reflectionCubeMap env s).1 ∧
    (reflectionCubeMap env (reflectionCubeMap env s).2.1).2.1 =
      (reflectionCubeMap env s).2.1 ∧
    (reflectionCubeMap env s).2.2 +
      (reflectionCubeMap env (reflectionCubeMap env s).2.1).2.2 ≤ 1 := by
  have h1 := reflectionCubeMap_eq_of_probe env s p hprobe
  have h2 :=
    reflectionCubeMap_eq_of_probe env
      { s with reflectionCubeMap := none } p (by simpa using hprobe)
  rw [h1]
  simp [h2]

/-- Witness for C5: a concrete state with probe 1 and a graphics
collaborator that would hand out texture 9 if asked. -/
theorem C5_cube_map_at_most_one_alloc_witness :
    (⟨true, some 1, none, none, none, 0⟩ :
        FeatureState).xrLightProbe = some 1 ∧
    ((reflectionCubeMap ⟨fun _ => 9⟩
        (reflectionCubeMap ⟨fun _ => 9⟩
          ⟨true, some 1, none, none, none, 0⟩).2.1).1 =
      (reflectionCubeMap ⟨fun _ => 9⟩
        ⟨true, some 1, none, none, none, 0⟩).1 ∧
     (reflectionCubeMap ⟨fun _ => 9⟩
        (reflectionCubeMap ⟨fun _ => 9⟩
          ⟨true, some 1, none, none, none, 0⟩).2.1).2.1 =
      (reflectionCubeMap ⟨fun _ => 9⟩
        ⟨true, some 1, none, none, none, 0⟩).2.1 ∧
     (reflectionCubeMap ⟨fun _ => 9⟩
        ⟨true, some 1, none, none, none, 0⟩).2.2 +
      (reflectionCubeMap ⟨fun _ => 9⟩
        (reflectionCubeMap ⟨fun _ => 9⟩
          ⟨true, some 1, none, none, none, 0⟩).2.1).2.2 ≤ 1) :=
  ⟨rfl,
   C5_cube_map_at_most_one_alloc ⟨fun _ => 9⟩
     ⟨true, some 1, none, none, none, 0⟩ 1 rfl⟩

/-- Counterexample to claim C6 at a concrete input: at a state with a
probe handle present, the guard of the cube-map accessor evaluates as
false — the assignment expression yields `null`, which is falsy — so
the access obtains zero graphics resources, registers zero listeners,
and returns `null`, refuting that the guard always evaluates as true
and that every access forces regeneration and registers a duplicate
listener. -/
theorem C6_guard_counterexample :
    jsTruthyObj (none : Option WebGLTexture) = false ∧
    (reflectionCubeMap ⟨fun q => q⟩
        ⟨true, some 0, none, none, none, 0⟩).2.2 = 0 ∧
    (reflectionCubeMap ⟨fun q => q⟩
        ⟨true, some 0, none, none, none, 0⟩).2.1.reflectionChangeListeners
      = 0 ∧
    (reflectionCubeMap ⟨fun q => q⟩
        ⟨true, some 0, none, none, none, 0⟩).1 = none :=
  ⟨rfl, rfl, rfl, rfl⟩

/-- Claim C6 as amended: the lazy-initialisation guard of the
`reflectionCubeMap` accessor (which uses assignment to null rather
than an equality comparison) always evaluates as false when a probe
handle is present, because the assigned value `null` is falsy, so
every access clears the cached cube-map field, returns `null`, never
regenerates the cube map, and never registers a `reflectionchange`
listener. -/
theorem C6_guard_always_false (env : GraphicsEnv) (s : FeatureState)
    (p : XRLightProbe) (hprobe : s.xrLightProbe = some p) :
    reflectionCubeMap env s =
      (none, { s with reflectionCubeMap := none }, 0) :=
  reflectionCubeMap_eq_of_probe env s p hprobe

/-- Witness for the amended C6: a state with probe 4 and a stale
cached texture 8; the access wipes the cache and returns `null` with
zero allocations. -/
theorem C6_guard_always_false_witness :
    (⟨true, some 4, none, none, some 8, 0⟩ :
        FeatureState).xrLightProbe = some 4 ∧
    reflectionCubeMap ⟨fun q => q⟩
        ⟨true, some 4, none, none, some 8, 0⟩ =
      (none, ⟨true, some 4, none, none, none, 0⟩, 0) :=
  ⟨rfl, by
    simpa using
      C6_guard_always_false ⟨fun q => q⟩
        ⟨true, some 4, none, none, some 8, 0⟩ 4 rfl⟩

/-- Claim C7: every `dispose` clears the stored probe handle; a second
`dispose` performs zero listener removals — the listener is never
unregistered twice, and no call throws since every operation is total —
and a single `dispose` performs a removal exactly when the source
guard holds, that is, when both the probe handle and the cube-map
field are non-null, which is when a listener registration is
recorded. -/
theorem C7_dispose_twice_safe (s : FeatureState) :
    (dispose s).1.xrLightProbe = none ∧
    (dispose (dispose s).1).1.xrLightProbe = none ∧
    (dispose (dispose s).1).2 = 0 ∧
    (dispose s).2 + (dispose (dispose s).1).2 ≤ 1 ∧
    ((dispose s).2 = 1 ↔
      (s.xrLightProbe.isSome = true ∧
       s.reflectionCubeMap.isSome = true)) := by
  rcases hp : s.xrLightProbe with _ | p <;>
    rcases hc : s.reflectionCubeMap with _ | c <;>
      simp [dispose, baseDispose, hp, hc]

/-- Claim C8: the probe-resolution callback has no disposed-flag
guard: after `dispose` the probe handle is `null`, yet a late-arriving
resolution stores the handle again, so the probe-handle field of the
already-disposed (detached) instance becomes non-null. -/
theorem C8_late_resolution_after_dispose (s : FeatureState)
    (p : XRLightProbe) :
    (dispose s).1.xrLightProbe = none ∧
    (resolveLightProbe p (dispose s).1).xrLightProbe = some p ∧
    (resolveLightProbe p (dispose s).1).attached = false := by
  rcases hp : s.xrLightProbe with _ | q <;>
    rcases hc : s.reflectionCubeMap with _ | c <;>
      simp [dispose, baseDispose, resolveLightProbe, hp, hc]

/-- Claim C9: whenever no probe handle exists, the `reflectionCubeMap`
accessor returns `null`, obtains zero graphics objects, and leaves the
state unchanged — in particular no graphics binding is created and no
resource is allocated. -/
theorem C9_cube_map_null_without_probe (env : GraphicsEnv)
    (s : FeatureState) (hprobe : s.xrLightProbe = none) :
    reflectionCubeMap env s = (none, s, 0) := by
  simp [reflectionCubeMap, hprobe]

/-- Witness for C9: the initial state, with a graphics collaborator
that would hand out texture 9 if asked. -/
theorem C9_cube_map_null_without_probe_witness :
    initialState.xrLightProbe = none ∧
    reflectionCubeMap ⟨fun _ => 9⟩ initialState =
      (none, initialState, 0) :=
  ⟨rfl, C9_cube_map_null_without_probe ⟨fun _ => 9⟩ initialState rfl⟩

/-- Claim C10: `dispose` clears only the probe handle and leaves the
stored most-recent estimate in place: an instance that stored an
estimate before `dispose` still reports that estimate — not `null` —
through the `xrLightingEstimate` accessor afterwards. -/
theorem C10_dispose_keeps_estimate (s : FeatureState)
    (e : XRLightEstimate) (hest : s.xrLightEstimate = some e) :
    xrLightingEstimate (dispose s).1 = some e ∧
    (dispose s).1.xrLightProbe = none := by
  rcases hp : s.xrLightProbe with _ | p <;>
    rcases hc : s.reflectionCubeMap with _ | c <;>
      simp [dispose, baseDispose, xrLightingEstimate, hp, hc, hest]

/-- Witness for C10: a state holding estimate 6 before dispose still
reports estimate 6 after dispose, with the probe handle cleared. -/
theorem C10_dispose_keeps_estimate_witness :
    (⟨true, some 3, some 6, none, none, 0⟩ :
        FeatureState).xrLightEstimate = some 6 ∧
    (xrLightingEstimate
        (dispose ⟨true, some 3, some 6, none, none, 0⟩).1 = some 6 ∧
     (dispose ⟨true, some 3, some 6, none, none, 0⟩).1.xrLightProbe =
        none) :=
  ⟨rfl,
   C10_dispose_keeps_estimate ⟨true, some 3, some 6, none, none, 0⟩
     6 rfl⟩

end WebXRLightEstimation
